import Mathlib

/-
Verification of the infrastructure parameter-computation and status-extraction
core of the gardener-extension-provider-openstack repository
(pkg/internal/infrastructure/terraform.go), shallowly embedded in Lean 4.
-/

namespace Openstack

/-- Errors of the core: cloud-profile decode failures, identity-endpoint
resolution failures, and output-store access failures. -/
inductive InfraError where
  | configDecodeError (msg : String)
  | configResolutionError (msg : String)
  | stateAccessError (msg : String)
deriving DecidableEq, Repr

/-- TerraformOutputKeySSHKeyName is the key for accessing the SSH key name from outputs in terraform. -/
def TerraformOutputKeySSHKeyName : String := "key_name"

/-- TerraformOutputKeyRouterID is the id of the router between provider network and the worker subnet. -/
def TerraformOutputKeyRouterID : String := "router_id"

/-- TerraformOutputKeyNetworkID is the private worker network. -/
def TerraformOutputKeyNetworkID : String := "network_id"

/-- TerraformOutputKeySecurityGroupID is the id of the worker security group. -/
def TerraformOutputKeySecurityGroupID : String := "security_group_id"

/-- TerraformOutputKeySecurityGroupName is the name of the worker security group. -/
def TerraformOutputKeySecurityGroupName : String := "security_group_name"

/-- TerraformOutputKeyFloatingNetworkID is the id of the provider network. -/
def TerraformOutputKeyFloatingNetworkID : String := "floating_network_id"

/-- TerraformOutputKeySubnetID is the id of the worker subnet. -/
def TerraformOutputKeySubnetID : String := "subnet_id"

/-- DefaultRouterID is the computed router ID as generated by terraform. -/
def DefaultRouterID : String := "${openstack_networking_router_v2.router.id}"

/-- A pre-existing router referenced by the infrastructure configuration
(api.Router, field ID). -/
structure Router where
  id : String
deriving DecidableEq, Repr

/-- Network settings of the infrastructure configuration (api.Networks):
optional pre-existing router, primary workers CIDR and the deprecated
worker CIDR kept for backwards compatibility. -/
structure Networks where
  router : Option Router
  workers : String
  worker : String
deriving DecidableEq, Repr

/-- api.InfrastructureConfig: the provider-specific infrastructure
configuration with its network settings and the floating pool name. -/
structure InfrastructureConfig where
  networks : Networks
  floatingPoolName : String
deriving DecidableEq, Repr

/-- internal.Credentials: opaque identity fields, never interpreted. -/
structure Credentials where
  domainName : String
  tenantName : String
deriving DecidableEq, Repr

/-- A per-region identity-endpoint entry of the cloud profile
(api.KeyStoneURL: region and url). -/
structure KeyStoneURL where
  region : String
  url : String
deriving DecidableEq, Repr

/-- api.CloudProfileConfig: per-region identity-endpoint table, single
fallback endpoint, DNS server list. -/
structure CloudProfileConfig where
  keyStoneURLs : List KeyStoneURL
  keyStoneURL : String
  dnsServers : List String
deriving DecidableEq, Repr

/-- The spec of the Infrastructure resource
(extensionsv1alpha1.Infrastructure.Spec): target region and SSH public key
material (the raw bytes, read as a string by the value computer). -/
structure InfrastructureSpec where
  region : String
  sshPublicKey : String
deriving DecidableEq, Repr

/-- extensionsv1alpha1.Infrastructure: the Infrastructure resource, of which
the core reads the namespace and the spec. -/
structure Infrastructure where
  namespaceName : String
  spec : InfrastructureSpec
deriving DecidableEq, Repr

/-- controller.Cluster, seen through helper.CloudProfileConfigFromCluster:
the cluster context carries the result of decoding its cloud-profile
provider configuration. -/
structure Cluster where
  cloudProfileConfig : Except InfraError CloudProfileConfig
deriving Repr

/-- Modelled from the spec: helper.CloudProfileConfigFromCluster (not under
src) decodes the serialized cloud-profile provider configuration of the
cluster into a typed CloudProfileConfig; malformed input yields a decode
error which the caller propagates. -/
def CloudProfileConfigFromCluster (cluster : Cluster) : Except InfraError CloudProfileConfig :=
  cluster.cloudProfileConfig

/-- Modelled from the spec: helper.FindKeyStoneURL (not under src) looks the
region up in the per-region endpoint table; if present it returns that URL,
else if the fallback endpoint is non-empty it returns the fallback, else it
fails with a ConfigResolutionError. -/
def FindKeyStoneURL (keyStoneURLs : List KeyStoneURL) (keyStoneURL : String) (region : String) :
    Except InfraError String :=
  match keyStoneURLs.find? (fun entry => entry.region == region) with
  | some entry => Except.ok entry.url
  | none =>
    if keyStoneURL ≠ "" then Except.ok keyStoneURL
    else Except.error (InfraError.configResolutionError region)

/-- The "openstack" sub-map of the template parameters. -/
structure OpenstackValues where
  authURL : String
  domainName : String
  tenantName : String
  region : String
  floatingPoolName : String
deriving DecidableEq, Repr

/-- The "create" sub-map of the template parameters. -/
structure CreateValues where
  router : Bool
deriving DecidableEq, Repr

/-- The "router" sub-map of the template parameters. -/
structure RouterValues where
  id : String
deriving DecidableEq, Repr

/-- The "networks" sub-map of the template parameters. -/
structure NetworksValues where
  workers : String
deriving DecidableEq, Repr

/-- The "outputKeys" sub-map of the template parameters: the literal
output-key strings the rendered templates must produce. -/
structure OutputKeysValues where
  routerID : String
  networkID : String
  keyName : String
  securityGroupID : String
  securityGroupName : String
  floatingNetworkID : String
  subnetID : String
deriving DecidableEq, Repr

/-- The nested template-parameter structure returned by
ComputeTerraformerChartValues (the map of string to value of the source,
with its fixed nested key layout made explicit). -/
structure TemplateParameters where
  openstack : OpenstackValues
  create : CreateValues
  dnsServers : List String
  sshPublicKey : String
  router : RouterValues
  clusterName : String
  networks : NetworksValues
  outputKeys : OutputKeysValues
deriving DecidableEq, Repr

/-- ComputeTerraformerChartValues computes the values for the OpenStack
Terraformer chart. -/
def ComputeTerraformerChartValues (infra : Infrastructure) (credentials : Credentials)
    (config : InfrastructureConfig) (cluster : Cluster) :
    Except InfraError TemplateParameters :=
  let createRouter : Bool :=
    match config.networks.router with
    | some _ => false
    | none => true
  let routerID : String :=
    match config.networks.router with
    | some router => router.id
    | none => DefaultRouterID
  match CloudProfileConfigFromCluster cluster with
  | Except.error err => Except.error err
  | Except.ok cloudProfileConfig =>
    match FindKeyStoneURL cloudProfileConfig.keyStoneURLs cloudProfileConfig.keyStoneURL
        infra.spec.region with
    | Except.error err => Except.error err
    | Except.ok keyStoneURL =>
      let workersCIDR : String :=
        if config.networks.workers == "" then config.networks.worker
        else config.networks.workers
      Except.ok
        { openstack :=
            { authURL := keyStoneURL
              domainName := credentials.domainName
              tenantName := credentials.tenantName
              region := infra.spec.region
              floatingPoolName := config.floatingPoolName }
          create := { router := createRouter }
          dnsServers := cloudProfileConfig.dnsServers
          sshPublicKey := infra.spec.sshPublicKey
          router := { id := routerID }
          clusterName := infra.namespaceName
          networks := { workers := workersCIDR }
          outputKeys :=
            { routerID := TerraformOutputKeyRouterID
              networkID := TerraformOutputKeyNetworkID
              keyName := TerraformOutputKeySSHKeyName
              securityGroupID := TerraformOutputKeySecurityGroupID
              securityGroupName := TerraformOutputKeySecurityGroupName
              floatingNetworkID := TerraformOutputKeyFloatingNetworkID
              subnetID := TerraformOutputKeySubnetID } }

/-- TerraformState is the Terraform state for an infrastructure: the seven
named string outputs. -/
structure TerraformState where
  sshKeyName : String
  routerID : String
  networkID : String
  subnetID : String
  floatingNetworkID : String
  securityGroupID : String
  securityGroupName : String
deriving DecidableEq, Repr

/-- terraformer.Terraformer, seen through the one method the core uses: a
batch fetch of named output variables from the provisioning backend's
output store. The store is an association list; in the source the fetched
result is a Go map of string to string, where an absent key reads as the
empty string. -/
structure Terraformer where
  getStateOutputVariables : List String → Except InfraError (List (String × String))

/-- Reading a key from the fetched variable map: Go map indexing returns the
zero value (the empty string) when the key is absent. -/
def lookupVar (vars : List (String × String)) (key : String) : String :=
  (vars.lookup key).getD ""

/-- The fixed list of output keys that ExtractTerraformState requests from
the output store (the outputKeys local of the source). -/
def extractionOutputKeys : List String :=
  [TerraformOutputKeySSHKeyName,
   TerraformOutputKeyRouterID,
   TerraformOutputKeyNetworkID,
   TerraformOutputKeySubnetID,
   TerraformOutputKeyFloatingNetworkID,
   TerraformOutputKeySecurityGroupID,
   TerraformOutputKeySecurityGroupName]

/-- ExtractTerraformState extracts the TerraformState from the given
Terraformer. -/
def ExtractTerraformState (tf : Terraformer) (config : InfrastructureConfig) :
    Except InfraError TerraformState :=
  match tf.getStateOutputVariables extractionOutputKeys with
  | Except.error err => Except.error err
  | Except.ok vars =>
    Except.ok
      { sshKeyName := lookupVar vars TerraformOutputKeySSHKeyName
        routerID := lookupVar vars TerraformOutputKeyRouterID
        networkID := lookupVar vars TerraformOutputKeyNetworkID
        subnetID := lookupVar vars TerraformOutputKeySubnetID
        floatingNetworkID := lookupVar vars TerraformOutputKeyFloatingNetworkID
        securityGroupID := lookupVar vars TerraformOutputKeySecurityGroupID
        securityGroupName := lookupVar vars TerraformOutputKeySecurityGroupName }

/-- Modelled from the spec: apiv1alpha1.SchemeGroupVersion.String() (not
under src), the fixed scheme-group-version apiVersion string of the
v1alpha1 provider API. -/
def SchemeGroupVersionString : String := "openstack.provider.extensions.gardener.cloud/v1alpha1"

/-- Modelled from the spec: apiv1alpha1.PurposeNodes (not under src), the
purpose tag "nodes" carried by the subnet and security-group entries. -/
def PurposeNodes : String := "nodes"

/-- metav1.TypeMeta: apiVersion and kind of a status object. -/
structure TypeMeta where
  apiVersion : String
  kind : String
deriving DecidableEq, Repr

/-- apiv1alpha1.FloatingPoolStatus. -/
structure FloatingPoolStatus where
  id : String
  name : String
deriving DecidableEq, Repr

/-- apiv1alpha1.RouterStatus. -/
structure RouterStatus where
  id : String
deriving DecidableEq, Repr

/-- apiv1alpha1.Subnet: a purpose-tagged subnet entry. -/
structure Subnet where
  purpose : String
  id : String
deriving DecidableEq, Repr

/-- apiv1alpha1.SecurityGroup: a purpose-tagged security-group entry. -/
structure SecurityGroup where
  purpose : String
  id : String
  name : String
deriving DecidableEq, Repr

/-- apiv1alpha1.NetworkStatus. -/
structure NetworkStatus where
  id : String
  floatingPool : FloatingPoolStatus
  router : RouterStatus
  subnets : List Subnet
deriving DecidableEq, Repr

/-- apiv1alpha1.NodeStatus. -/
structure NodeStatus where
  keyName : String
deriving DecidableEq, Repr

/-- apiv1alpha1.InfrastructureStatus: the persisted status record. -/
structure InfrastructureStatus where
  typeMeta : TypeMeta
  networks : NetworkStatus
  securityGroups : List SecurityGroup
  node : NodeStatus
deriving DecidableEq, Repr

/-- StatusTypeMeta is the TypeMeta of the InfrastructureStatus. -/
def StatusTypeMeta : TypeMeta :=
  { apiVersion := SchemeGroupVersionString
    kind := "InfrastructureStatus" }

/-- StatusFromTerraformState computes an InfrastructureStatus from the given
Terraform variables. The floating pool name is not set here (it is the Go
zero value, the empty string). -/
def StatusFromTerraformState (state : TerraformState) : InfrastructureStatus :=
  { typeMeta :=
      { apiVersion := SchemeGroupVersionString
        kind := "InfrastructureStatus" }
    networks :=
      { id := state.networkID
        floatingPool :=
          { id := state.floatingNetworkID
            name := "" }
        router := { id := state.routerID }
        subnets :=
          [{ purpose := PurposeNodes
             id := state.subnetID }] }
    securityGroups :=
      [{ purpose := PurposeNodes
         id := state.securityGroupID
         name := state.securityGroupName }]
    node := { keyName := state.sshKeyName } }

/-- ComputeStatus computes the status based on the Terraformer and the given
InfrastructureConfig: extract the state, build the status, then enrich the
floating pool name from the configuration. -/
def ComputeStatus (tf : Terraformer) (config : InfrastructureConfig) :
    Except InfraError InfrastructureStatus :=
  match ExtractTerraformState tf config with
  | Except.error err => Except.error err
  | Except.ok state =>
    let status := StatusFromTerraformState state
    Except.ok
      { status with
          networks :=
            { status.networks with
                floatingPool :=
                  { status.networks.floatingPool with
                      name := config.floatingPoolName } } }

/-- A concrete Infrastructure resource used to instantiate the theorems. -/
def infraW : Infrastructure :=
  { namespaceName := "shoot-1"
    spec := { region := "eu", sshPublicKey := "ssh-key" } }

/-- Concrete credentials used to instantiate the theorems. -/
def credsW : Credentials :=
  { domainName := "dom", tenantName := "ten" }

/-- A concrete cluster whose cloud-profile configuration decodes successfully. -/
def clusterW : Cluster :=
  { cloudProfileConfig :=
      Except.ok
        { keyStoneURLs := [{ region := "eu", url := "https://eu.example" }]
          keyStoneURL := ""
          dnsServers := [] } }

/-- A concrete cluster whose cloud-profile configuration fails to decode. -/
def clusterDecodeErrW : Cluster :=
  { cloudProfileConfig := Except.error (InfraError.configDecodeError "bad") }

/-- A concrete infrastructure configuration without a pre-existing router. -/
def configNoRouterW : InfrastructureConfig :=
  { networks := { router := none, workers := "10.250.0.0/19", worker := "" }
    floatingPoolName := "ext-net" }

/-- The template parameters that ComputeTerraformerChartValues yields on the
concrete inputs above. -/
def paramsW : TemplateParameters :=
  { openstack :=
      { authURL := "https://eu.example"
        domainName := "dom"
        tenantName := "ten"
        region := "eu"
        floatingPoolName := "ext-net" }
    create := { router := true }
    dnsServers := []
    sshPublicKey := "ssh-key"
    router := { id := DefaultRouterID }
    clusterName := "shoot-1"
    networks := { workers := "10.250.0.0/19" }
    outputKeys :=
      { routerID := "router_id"
        networkID := "network_id"
        keyName := "key_name"
        securityGroupID := "security_group_id"
        securityGroupName := "security_group_name"
        floatingNetworkID := "floating_network_id"
        subnetID := "subnet_id" } }

/-- A concrete Terraformer whose output store holds all seven keys. -/
def tfW : Terraformer :=
  { getStateOutputVariables := fun _ =>
      Except.ok
        [("key_name", "k"), ("router_id", "r"), ("network_id", "n"), ("subnet_id", "s"),
         ("floating_network_id", "net-123"), ("security_group_id", "sg"),
         ("security_group_name", "sgn")] }

/-- A concrete Terraformer whose output store is empty (every key absent). -/
def tfEmptyW : Terraformer :=
  { getStateOutputVariables := fun _ => Except.ok [] }

/-- A concrete Terraformer whose batch fetch fails. -/
def tfErrW : Terraformer :=
  { getStateOutputVariables := fun _ => Except.error (InfraError.stateAccessError "boom") }

/-- The Terraform state extracted from tfW. -/
def stateW : TerraformState :=
  { sshKeyName := "k"
    routerID := "r"
    networkID := "n"
    subnetID := "s"
    floatingNetworkID := "net-123"
    securityGroupID := "sg"
    securityGroupName := "sgn" }

/-- The status computed from tfW and configNoRouterW. -/
def statusW : InfrastructureStatus :=
  { typeMeta := { apiVersion := SchemeGroupVersionString, kind := "InfrastructureStatus" }
    networks :=
      { id := "n"
        floatingPool := { id := "net-123", name := "ext-net" }
        router := { id := "r" }
        subnets := [{ purpose := "nodes", id := "s" }] }
    securityGroups := [{ purpose := "nodes", id := "sg", name := "sgn" }]
    node := { keyName := "k" } }

/-- Elimination principle for a successful run of ComputeTerraformerChartValues:
the cloud profile decoded, the keystone URL resolved, and the result is
exactly the assembled template-parameter record. -/
lemma computeChartValues_ok_elim
    (infra : Infrastructure) (credentials : Credentials) (config : InfrastructureConfig)
    (cluster : Cluster) (params : TemplateParameters)
    (h : ComputeTerraformerChartValues infra credentials config cluster = Except.ok params) :
    ∃ cloudProfileConfig keyStoneURL,
      CloudProfileConfigFromCluster cluster = Except.ok cloudProfileConfig ∧
      FindKeyStoneURL cloudProfileConfig.keyStoneURLs cloudProfileConfig.keyStoneURL
        infra.spec.region = Except.ok keyStoneURL ∧
      params =
        { openstack :=
            { authURL := keyStoneURL
              domainName := credentials.domainName
              tenantName := credentials.tenantName
              region := infra.spec.region
              floatingPoolName := config.floatingPoolName }
          create :=
            { router :=
                match config.networks.router with
                | some _ => false
                | none => true }
          dnsServers := cloudProfileConfig.dnsServers
          sshPublicKey := infra.spec.sshPublicKey
          router :=
            { id :=
                match config.networks.router with
                | some router => router.id
                | none => DefaultRouterID }
          clusterName := infra.namespaceName
          networks :=
            { workers :=
                if config.networks.workers == "" then config.networks.worker
                else config.networks.workers }
          outputKeys :=
            { routerID := TerraformOutputKeyRouterID
              networkID := TerraformOutputKeyNetworkID
              keyName := TerraformOutputKeySSHKeyName
              securityGroupID := TerraformOutputKeySecurityGroupID
              securityGroupName := TerraformOutputKeySecurityGroupName
              floatingNetworkID := TerraformOutputKeyFloatingNetworkID
              subnetID := TerraformOutputKeySubnetID } } := by
  simp only [ComputeTerraformerChartValues] at h
  split at h
  · exact Except.noConfusion h
  · split at h
    · exact Except.noConfusion h
    · refine ⟨_, _, ?_, ?_, (Except.ok.inj h).symm⟩
      · assumption
      · assumption

/-- A cloud-profile decode failure aborts ComputeTerraformerChartValues with
that same error. -/
lemma compute_error_of_decode_error
    (infra : Infrastructure) (credentials : Credentials) (config : InfrastructureConfig)
    (cluster : Cluster) (err : InfraError)
    (h : CloudProfileConfigFromCluster cluster = Except.error err) :
    ComputeTerraformerChartValues infra credentials config cluster = Except.error err := by
  simp only [ComputeTerraformerChartValues]
  rw [h]

/-- A keystone-resolution failure aborts ComputeTerraformerChartValues with
that same error. -/
lemma compute_error_of_keystone_error
    (infra : Infrastructure) (credentials : Credentials) (config : InfrastructureConfig)
    (cluster : Cluster) (cloudProfileConfig : CloudProfileConfig) (err : InfraError)
    (hc : CloudProfileConfigFromCluster cluster = Except.ok cloudProfileConfig)
    (hk : FindKeyStoneURL cloudProfileConfig.keyStoneURLs cloudProfileConfig.keyStoneURL
      infra.spec.region = Except.error err) :
    ComputeTerraformerChartValues infra credentials config cluster = Except.error err := by
  obtain ⟨cp⟩ := cluster
  simp only [CloudProfileConfigFromCluster] at hc
  subst hc
  simp only [ComputeTerraformerChartValues, CloudProfileConfigFromCluster]
  rw [hk]

/-- A failing batch fetch aborts ExtractTerraformState with that same error. -/
lemma extract_error_of_fetch_error (tf : Terraformer) (config : InfrastructureConfig)
    (err : InfraError)
    (h : tf.getStateOutputVariables extractionOutputKeys = Except.error err) :
    ExtractTerraformState tf config = Except.error err := by
  simp only [ExtractTerraformState]
  rw [h]

/-- Claim C1: the fixed output-key wire contract is the exact literal strings
key_name, router_id, network_id, security_group_id, security_group_name,
floating_network_id and subnet_id, and the set of keys that
ExtractTerraformState requests from the output store is exactly the set of
values placed in the outputKeys sub-map by ComputeTerraformerChartValues. -/
theorem output_key_wire_contract :
    (TerraformOutputKeySSHKeyName = "key_name" ∧
     TerraformOutputKeyRouterID = "router_id" ∧
     TerraformOutputKeyNetworkID = "network_id" ∧
     TerraformOutputKeySecurityGroupID = "security_group_id" ∧
     TerraformOutputKeySecurityGroupName = "security_group_name" ∧
     TerraformOutputKeyFloatingNetworkID = "floating_network_id" ∧
     TerraformOutputKeySubnetID = "subnet_id") ∧
    ∀ infra credentials config cluster params,
      ComputeTerraformerChartValues infra credentials config cluster = Except.ok params →
      [params.outputKeys.routerID, params.outputKeys.networkID, params.outputKeys.keyName,
       params.outputKeys.securityGroupID, params.outputKeys.securityGroupName,
       params.outputKeys.floatingNetworkID, params.outputKeys.subnetID].toFinset =
        extractionOutputKeys.toFinset := by
  refine ⟨⟨rfl, rfl, rfl, rfl, rfl, rfl, rfl⟩, ?_⟩
  intro infra credentials config cluster params h
  obtain ⟨cloudProfileConfig, keyStoneURL, -, -, hp⟩ :=
    computeChartValues_ok_elim infra credentials config cluster params h
  subst hp
  show [TerraformOutputKeyRouterID, TerraformOutputKeyNetworkID, TerraformOutputKeySSHKeyName,
        TerraformOutputKeySecurityGroupID, TerraformOutputKeySecurityGroupName,
        TerraformOutputKeyFloatingNetworkID, TerraformOutputKeySubnetID].toFinset =
      extractionOutputKeys.toFinset
  decide

/-- Claim C1 witness: the contract instantiated on a concrete successful run. -/
theorem output_key_wire_contract_witness :
    [paramsW.outputKeys.routerID, paramsW.outputKeys.networkID, paramsW.outputKeys.keyName,
     paramsW.outputKeys.securityGroupID, paramsW.outputKeys.securityGroupName,
     paramsW.outputKeys.floatingNetworkID, paramsW.outputKeys.subnetID].toFinset =
      extractionOutputKeys.toFinset :=
  output_key_wire_contract.2 infraW credsW configNoRouterW clusterW paramsW rfl

/-- Claim C2: StatusFromTerraformState reproduces each of the seven state
values verbatim in the corresponding status leaf field, with singleton
subnet and security-group lists tagged with purpose nodes. -/
theorem statusFromTerraformState_roundtrip (state : TerraformState) :
    (StatusFromTerraformState state).networks.id = state.networkID ∧
    (StatusFromTerraformState state).networks.router.id = state.routerID ∧
    (StatusFromTerraformState state).networks.floatingPool.id = state.floatingNetworkID ∧
    (StatusFromTerraformState state).node.keyName = state.sshKeyName ∧
    (StatusFromTerraformState state).networks.subnets =
      [{ purpose := "nodes", id := state.subnetID }] ∧
    (StatusFromTerraformState state).securityGroups =
      [{ purpose := "nodes", id := state.securityGroupID, name := state.securityGroupName }] :=
  ⟨rfl, rfl, rfl, rfl, rfl, rfl⟩

/-- Claim C3: on the success path, ComputeStatus yields a status whose
floating pool id is the extracted floating-network id and whose floating
pool name is the floating-pool-name field of the configuration. -/
theorem computeStatus_floatingPool_enrichment (tf : Terraformer)
    (config : InfrastructureConfig) (state : TerraformState)
    (h : ExtractTerraformState tf config = Except.ok state) :
    ∃ status, ComputeStatus tf config = Except.ok status ∧
      status.networks.floatingPool =
        { id := state.floatingNetworkID, name := config.floatingPoolName } := by
  simp only [ComputeStatus]
  rw [h]
  exact ⟨_, rfl, rfl⟩

/-- Claim C3 witness: floatingPoolName ext-net and extracted
floatingNetworkID net-123 give floatingPool id net-123, name ext-net. -/
theorem computeStatus_floatingPool_enrichment_witness :
    ∃ status, ComputeStatus tfW configNoRouterW = Except.ok status ∧
      status.networks.floatingPool = { id := "net-123", name := "ext-net" } :=
  computeStatus_floatingPool_enrichment tfW configNoRouterW stateW rfl

/-- Claim C4: without an explicit router the computed parameters have
create.router true and router.id equal to the fixed placeholder expression;
with an explicit router they have create.router false and its id. -/
theorem computeChartValues_router_resolution (infra : Infrastructure)
    (credentials : Credentials) (config : InfrastructureConfig) (cluster : Cluster)
    (params : TemplateParameters)
    (h : ComputeTerraformerChartValues infra credentials config cluster = Except.ok params) :
    (config.networks.router = none →
      params.create.router = true ∧
      params.router.id = "${openstack_networking_router_v2.router.id}") ∧
    ∀ router, config.networks.router = some router →
      params.create.router = false ∧ params.router.id = router.id := by
  obtain ⟨cloudProfileConfig, keyStoneURL, -, -, hp⟩ :=
    computeChartValues_ok_elim infra credentials config cluster params h
  subst hp
  constructor
  · intro hr
    rw [hr]
    exact ⟨rfl, rfl⟩
  · intro router hr
    rw [hr]
    exact ⟨rfl, rfl⟩

/-- Claim C4 witness: the router-less concrete configuration yields
create.router true and the placeholder router id. -/
theorem computeChartValues_router_resolution_witness :
    (configNoRouterW.networks.router = none →
      paramsW.create.router = true ∧
      paramsW.router.id = "${openstack_networking_router_v2.router.id}") ∧
    ∀ router, configNoRouterW.networks.router = some router →
      paramsW.create.router = false ∧ paramsW.router.id = router.id :=
  computeChartValues_router_resolution infraW credsW configNoRouterW clusterW paramsW rfl

/-- Claim C5: the computed networks.workers value prefers the primary
workers field, falls back to the deprecated worker field when the primary is
empty, and is empty when both are empty. -/
theorem computeChartValues_workers_resolution (infra : Infrastructure)
    (credentials : Credentials) (config : InfrastructureConfig) (cluster : Cluster)
    (params : TemplateParameters)
    (h : ComputeTerraformerChartValues infra credentials config cluster = Except.ok params) :
    (config.networks.workers ≠ "" →
      params.networks.workers = config.networks.workers) ∧
    (config.networks.workers = "" →
      params.networks.workers = config.networks.worker) ∧
    (config.networks.workers = "" → config.networks.worker = "" →
      params.networks.workers = "") := by
  obtain ⟨cloudProfileConfig, keyStoneURL, -, -, hp⟩ :=
    computeChartValues_ok_elim infra credentials config cluster params h
  subst hp
  refine ⟨fun hne => ?_, fun he => ?_, fun he hw => ?_⟩
  · simp [hne]
  · simp [he]
  · simp [he, hw]

/-- Claim C5 witness: the concrete configuration with a non-empty primary
workers field yields that field as networks.workers. -/
theorem computeChartValues_workers_resolution_witness :
    (configNoRouterW.networks.workers ≠ "" →
      paramsW.networks.workers = configNoRouterW.networks.workers) ∧
    (configNoRouterW.networks.workers = "" →
      paramsW.networks.workers = configNoRouterW.networks.worker) ∧
    (configNoRouterW.networks.workers = "" → configNoRouterW.networks.worker = "" →
      paramsW.networks.workers = "") :=
  computeChartValues_workers_resolution infraW credsW configNoRouterW clusterW paramsW rfl

/-- Claim C6: the core functions are all-or-nothing: a cloud-profile decode
failure or a keystone-resolution failure makes ComputeTerraformerChartValues
return that error and no parameters, and a batch-fetch failure makes
ExtractTerraformState and ComputeStatus return that error and no state or
status. -/
theorem core_error_propagation (infra : Infrastructure) (credentials : Credentials)
    (config : InfrastructureConfig) (cluster : Cluster) (err : InfraError) :
    (CloudProfileConfigFromCluster cluster = Except.error err →
      ComputeTerraformerChartValues infra credentials config cluster = Except.error err) ∧
    (∀ cloudProfileConfig,
      CloudProfileConfigFromCluster cluster = Except.ok cloudProfileConfig →
      FindKeyStoneURL cloudProfileConfig.keyStoneURLs cloudProfileConfig.keyStoneURL
        infra.spec.region = Except.error err →
      ComputeTerraformerChartValues infra credentials config cluster = Except.error err) ∧
    ∀ tf : Terraformer,
      tf.getStateOutputVariables extractionOutputKeys = Except.error err →
      ExtractTerraformState tf config = Except.error err ∧
      ComputeStatus tf config = Except.error err := by
  refine ⟨?_, ?_, ?_⟩
  · intro h
    exact compute_error_of_decode_error infra credentials config cluster err h
  · intro cloudProfileConfig hc hk
    exact compute_error_of_keystone_error infra credentials config cluster cloudProfileConfig
      err hc hk
  · intro tf hf
    have hE := extract_error_of_fetch_error tf config err hf
    refine ⟨hE, ?_⟩
    simp only [ComputeStatus]
    rw [hE]

/-- Claim C6 witness: the propagation instantiated on a failing decode and a
failing batch fetch. -/
theorem core_error_propagation_witness :
    ComputeTerraformerChartValues infraW credsW configNoRouterW clusterDecodeErrW =
      Except.error (InfraError.configDecodeError "bad") ∧
    ExtractTerraformState tfErrW configNoRouterW =
      Except.error (InfraError.stateAccessError "boom") ∧
    ComputeStatus tfErrW configNoRouterW =
      Except.error (InfraError.stateAccessError "boom") :=
  ⟨(core_error_propagation infraW credsW configNoRouterW clusterDecodeErrW
      (InfraError.configDecodeError "bad")).1 rfl,
   (core_error_propagation infraW credsW configNoRouterW clusterW
      (InfraError.stateAccessError "boom")).2.2 tfErrW rfl⟩

/-- Claim C7: every status built by StatusFromTerraformState, and every
status returned by ComputeStatus, carries the fixed type metadata: the
scheme-group-version apiVersion string and kind InfrastructureStatus. -/
theorem status_typeMeta_fixed :
    (∀ state : TerraformState,
      (StatusFromTerraformState state).typeMeta.apiVersion = SchemeGroupVersionString ∧
      (StatusFromTerraformState state).typeMeta.kind = "InfrastructureStatus") ∧
    ∀ (tf : Terraformer) (config : InfrastructureConfig) (status : InfrastructureStatus),
      ComputeStatus tf config = Except.ok status →
      status.typeMeta.apiVersion = SchemeGroupVersionString ∧
      status.typeMeta.kind = "InfrastructureStatus" := by
  refine ⟨fun state => ⟨rfl, rfl⟩, ?_⟩
  intro tf config status h
  simp only [ComputeStatus] at h
  split at h
  · exact Except.noConfusion h
  · have h2 := Except.ok.inj h
    subst h2
    exact ⟨rfl, rfl⟩

/-- Claim C7 witness: the fixed type metadata on a concrete computed status. -/
theorem status_typeMeta_fixed_witness :
    statusW.typeMeta.apiVersion = SchemeGroupVersionString ∧
    statusW.typeMeta.kind = "InfrastructureStatus" :=
  status_typeMeta_fixed.2 tfW configNoRouterW statusW rfl

/-- Claim C8: ComputeTerraformerChartValues is deterministic: identical
inputs give the identical result, parameters or error. -/
theorem computeChartValues_deterministic (infra1 infra2 : Infrastructure)
    (credentials1 credentials2 : Credentials) (config1 config2 : InfrastructureConfig)
    (cluster1 cluster2 : Cluster)
    (hi : infra1 = infra2) (hc : credentials1 = credentials2) (hg : config1 = config2)
    (hl : cluster1 = cluster2) :
    ComputeTerraformerChartValues infra1 credentials1 config1 cluster1 =
      ComputeTerraformerChartValues infra2 credentials2 config2 cluster2 := by
  subst hi hc hg hl
  rfl

/-- Claim C8 witness: determinism instantiated at concrete inputs. -/
theorem computeChartValues_deterministic_witness :
    ComputeTerraformerChartValues infraW credsW configNoRouterW clusterW =
      ComputeTerraformerChartValues infraW credsW configNoRouterW clusterW :=
  computeChartValues_deterministic infraW infraW credsW credsW configNoRouterW configNoRouterW
    clusterW clusterW rfl rfl rfl rfl

/-- Claim C9: when the batch fetch succeeds but the returned map lacks some
of the seven requested keys, ExtractTerraformState still succeeds and each
missing key gives the empty string in the corresponding state field. -/
theorem extractTerraformState_missing_keys (tf : Terraformer)
    (config : InfrastructureConfig) (vars : List (String × String))
    (h : tf.getStateOutputVariables extractionOutputKeys = Except.ok vars) :
    ∃ state, ExtractTerraformState tf config = Except.ok state ∧
      (vars.lookup TerraformOutputKeySSHKeyName = none → state.sshKeyName = "") ∧
      (vars.lookup TerraformOutputKeyRouterID = none → state.routerID = "") ∧
      (vars.lookup TerraformOutputKeyNetworkID = none → state.networkID = "") ∧
      (vars.lookup TerraformOutputKeySubnetID = none → state.subnetID = "") ∧
      (vars.lookup TerraformOutputKeyFloatingNetworkID = none → state.floatingNetworkID = "") ∧
      (vars.lookup TerraformOutputKeySecurityGroupID = none → state.securityGroupID = "") ∧
      (vars.lookup TerraformOutputKeySecurityGroupName = none →
        state.securityGroupName = "") := by
  simp only [ExtractTerraformState]
  rw [h]
  refine ⟨_, rfl, ?_, ?_, ?_, ?_, ?_, ?_, ?_⟩ <;>
    intro hnone <;> simp [lookupVar, hnone]

/-- Claim C9 witness: an empty output store yields a successful extraction
with every field equal to the empty string. -/
theorem extractTerraformState_missing_keys_witness :
    ∃ state, ExtractTerraformState tfEmptyW configNoRouterW = Except.ok state ∧
      (([] : List (String × String)).lookup TerraformOutputKeySSHKeyName = none →
        state.sshKeyName = "") ∧
      (([] : List (String × String)).lookup TerraformOutputKeyRouterID = none →
        state.routerID = "") ∧
      (([] : List (String × String)).lookup TerraformOutputKeyNetworkID = none →
        state.networkID = "") ∧
      (([] : List (String × String)).lookup TerraformOutputKeySubnetID = none →
        state.subnetID = "") ∧
      (([] : List (String × String)).lookup TerraformOutputKeyFloatingNetworkID = none →
        state.floatingNetworkID = "") ∧
      (([] : List (String × String)).lookup TerraformOutputKeySecurityGroupID = none →
        state.securityGroupID = "") ∧
      (([] : List (String × String)).lookup TerraformOutputKeySecurityGroupName = none →
        state.securityGroupName = "") :=
  extractTerraformState_missing_keys tfEmptyW configNoRouterW [] rfl

/-- Claim C10: ExtractTerraformState does not depend on its config
parameter: for every Terraformer and any two configurations the results are
identical. -/
theorem extractTerraformState_config_independent (tf : Terraformer)
    (config1 config2 : InfrastructureConfig) :
    ExtractTerraformState tf config1 = ExtractTerraformState tf config2 :=
  rfl

end Openstack
